import Mathlib

/-!
Verification of the mirakc-arib Program Filter and Airtime Tracker cores
(src/program_filter.hh and src/airtime_tracker.hh).

The embedding is shallow: each C++ member function becomes a Lean function
over an explicit state record.  The section demultiplexer is abstracted: a
HandlePacket call receives, next to the raw packet, the list of parsed
tables that the demux completes and dispatches while feeding that packet
(the dispatch happens before the gating logic runs, exactly as in
HandlePacket, which calls feedPacket first).  The downstream sink is
modelled by a function from the index of the sink call to the boolean the
sink returns for that call; the packets handed to the sink are collected in
an explicit forwarding list.
-/

set_option maxRecDepth 4096

/-- Modelled from the spec: kPcrUpperBound is defined in base.hh, which is
not part of the surveyed sources.  The spec fixes it to 2 ^ 33, the PCR
wrap-around modulus (33-bit base counter). -/
def kPcrUpperBound : Int := 8589934592

/-- Modelled from the spec: kPcrTicksPerMs is defined in base.hh, which is
not part of the surveyed sources.  The spec fixes it to 90 (90 kHz base
clock, hence 90 ticks per millisecond). -/
def kPcrTicksPerMs : Int := 90

/-- Standard PAT PID (ts::PID_PAT = 0x0000), from the TSDuck library. -/
def patPid : Nat := 0

/-- Null PID (ts::PID_NULL = 0x1FFF), from the TSDuck library; used by the
filter as the sentinel for an absent PMT or PCR PID. -/
def nullPid : Nat := 8191

/-- Fields of a ts::TSPacket consumed by the filter: getPID(), getPUSI()
and hasPCR()/getPCR() (collapsed into an Option). -/
structure TSPacket where
  pid : Nat
  pusi : Bool
  pcr : Option Int
deriving DecidableEq

/-- ProgramFilterOption (program_filter.hh).  ts::Time values are modelled
as absolute milliseconds (ts::Time subtraction yields ts::MilliSecond). -/
structure ProgramFilterOption where
  sid : Nat
  eid : Nat
  clock_pcr : Int
  clock_time : Int
  start_margin : Int
  end_margin : Int
  pre_streaming : Bool
deriving DecidableEq

/-- AirtimeTrackerOption (airtime_tracker.hh). -/
structure AirtimeTrackerOption where
  sid : Nat
  eid : Nat
deriving DecidableEq

/-- Fields of a parsed ts::PAT consumed by HandlePat, together with the
source PID of the carrying ts::BinaryTable and its validity flag. -/
structure PatTable where
  sourcePid : Nat
  valid : Bool
  ts_id : Nat
  pmts : List (Nat × Nat)
deriving DecidableEq

/-- Fields of a parsed ts::PMT consumed by HandlePmt. -/
structure PmtTable where
  valid : Bool
  service_id : Nat
  pcr_pid : Nat
deriving DecidableEq

/-- Fields of a ts::EIT::Event consumed by the handlers: event_id,
start_time (absolute milliseconds) and duration (seconds). -/
structure EitEvent where
  event_id : Nat
  start_time : Int
  duration : Int
deriving DecidableEq

/-- Fields of a parsed ts::EIT (present/following, actual) consumed by the
handlers. -/
structure EitTable where
  valid : Bool
  onetw_id : Nat
  ts_id : Nat
  service_id : Nat
  events : List EitEvent
deriving DecidableEq

/-- A parsed table dispatched by the section demux to handleTable.  The
constructor mirrors the switch on table.tableId(): TID_PAT, TID_PMT,
TID_EIT_PF_ACT, and the default branch for every other table id. -/
inductive Table where
  | pat (t : PatTable)
  | pmt (t : PmtTable)
  | eit (t : EitTable)
  | other
deriving DecidableEq

/-- A demux (re)subscription performed by HandlePat: demux_.addPID and
demux_.removePID. -/
inductive DemuxOp where
  | add (pid : Nat)
  | remove (pid : Nat)
deriving DecidableEq

/-- The two values of ProgramFilter::State. -/
inductive PFState where
  | waitReady
  | streaming
deriving DecidableEq

/-- Mutable state of a ProgramFilter (the member fields of the class,
minus the demux, context and sink objects). -/
structure ProgramFilter where
  state : PFState
  last_pat_packets : List TSPacket
  last_pmt_packets : List TSPacket
  pmt_pid : Nat
  pcr_pid : Nat
  start_pcr : Int
  end_pcr : Int
  pcr_pid_ready : Bool
  pcr_range_ready : Bool
  stop : Bool
deriving DecidableEq

/-- The member initializers of ProgramFilter. -/
def ProgramFilter.init : ProgramFilter :=
  { state := PFState.waitReady
    last_pat_packets := []
    last_pmt_packets := []
    pmt_pid := nullPid
    pcr_pid := nullPid
    start_pcr := 0
    end_pcr := 0
    pcr_pid_ready := false
    pcr_range_ready := false
    stop := false }

/-- Result of one HandlePacket call: the new filter state, the packets
handed to the sink during the call (in order), the boolean returned to the
caller, and the total number of sink calls made so far (input index for
the sink oracle of the next call). -/
structure Step where
  pf : ProgramFilter
  fwd : List TSPacket
  ret : Bool
  calls : Nat
deriving DecidableEq

/-- ProgramFilter::ComparePcr (airtime_tracker.hh, earlier filter variant;
the later variant calls the identical helper).  Compares two PCR values:
a = lhs - rhs, b = lhs - (kPcrUpperBound + rhs), returns whichever has the
smaller absolute magnitude. -/
def ComparePcr (lhs rhs : Int) : Int :=
  let a := lhs - rhs
  let b := lhs - (kPcrUpperBound + rhs)
  if |a| < |b| then a else b

/-- Iterations of the while loop of ProgramFilter::ConvertTimeToPcr with
explicit fuel: add kPcrUpperBound while the value is negative.  The fuel
argument only bounds the iteration count so that the recursion is
structural; PcrWrapNonneg passes enough fuel for the loop to reach its
exit condition, and the lemma PcrWrapNonneg_eq recovers the exact
fuel-free while-loop equation. -/
def PcrWrapAux : Nat → Int → Int
  | 0, y => y
  | n + 1, y => if y < 0 then PcrWrapAux n (y + kPcrUpperBound) else y

/-- The while loop of ProgramFilter::ConvertTimeToPcr: add kPcrUpperBound
until the value is non-negative. -/
def PcrWrapNonneg (x : Int) : Int :=
  PcrWrapAux (-x).toNat x

/-- ProgramFilter::ConvertTimeToPcr (program_filter.hh).  The final C++
percent operator acts on a non-negative dividend, where truncated and
Euclidean remainder agree, so Int emod is a faithful translation. -/
def ConvertTimeToPcr (opt : ProgramFilterOption) (time : Int) : Int :=
  let ms := time - opt.clock_time
  let pcr := opt.clock_pcr + ms * kPcrTicksPerMs
  PcrWrapNonneg pcr % kPcrUpperBound

/-- ProgramFilter::UpdatePcrRange (program_filter.hh). -/
def ProgramFilter.UpdatePcrRange (opt : ProgramFilterOption) (event : EitEvent)
    (st : ProgramFilter) : ProgramFilter :=
  let start_time := event.start_time - opt.start_margin
  let duration := event.duration * 1000 + opt.end_margin
  let end_time := event.start_time + duration
  { st with
    start_pcr := ConvertTimeToPcr opt start_time
    end_pcr := ConvertTimeToPcr opt end_time
    pcr_range_ready := true }

/-- ProgramFilter::HandlePat (program_filter.hh).  Returns the new state
and the demux (un)subscriptions performed.  The none branch of the lookup
is unreachable in the source (MIRAKC_ARIB_ASSERT: upstream ServiceFilter
guarantees the target sid is present) and is modelled as a no-op. -/
def ProgramFilter.HandlePat (opt : ProgramFilterOption) (t : PatTable)
    (st : ProgramFilter) : ProgramFilter × List DemuxOp :=
  if t.sourcePid ≠ patPid then (st, [])
  else if t.valid = false then (st, [])
  else if t.ts_id = 0 then (st, [])
  else
    match t.pmts.lookup opt.sid with
    | none => (st, [])
    | some newPmtPid =>
      if st.pmt_pid ≠ nullPid then
        ({ st with pmt_pid := newPmtPid },
         [DemuxOp.remove st.pmt_pid, DemuxOp.add newPmtPid])
      else
        ({ st with pmt_pid := newPmtPid }, [DemuxOp.add newPmtPid])

/-- ProgramFilter::HandlePmt (program_filter.hh). -/
def ProgramFilter.HandlePmt (opt : ProgramFilterOption) (t : PmtTable)
    (st : ProgramFilter) : ProgramFilter :=
  if t.valid = false then st
  else if t.service_id ≠ opt.sid then st
  else { st with pcr_pid := t.pcr_pid, pcr_pid_ready := true }

/-- ProgramFilter::HandleEit (program_filter.hh). -/
def ProgramFilter.HandleEit (opt : ProgramFilterOption) (t : EitTable)
    (st : ProgramFilter) : ProgramFilter :=
  if t.valid = false then st
  else if t.service_id ≠ opt.sid then st
  else
    match t.events with
    | [] => { st with stop := true }
    | present :: rest =>
      if present.event_id = opt.eid then ProgramFilter.UpdatePcrRange opt present st
      else
        match rest with
        | [] =>
          if st.state = PFState.streaming then st else { st with stop := true }
        | following :: _ =>
          if following.event_id = opt.eid then ProgramFilter.UpdatePcrRange opt following st
          else if st.state = PFState.streaming then st
          else { st with stop := true }

/-- ProgramFilter::handleTable (program_filter.hh): dispatch on the table
id. -/
def ProgramFilter.HandleTable (opt : ProgramFilterOption) (st : ProgramFilter) :
    Table → ProgramFilter × List DemuxOp
  | Table.pat t => ProgramFilter.HandlePat opt t st
  | Table.pmt t => (ProgramFilter.HandlePmt opt t st, [])
  | Table.eit t => (ProgramFilter.HandleEit opt t st, [])
  | Table.other => (st, [])

/-- Effect of demux_.feedPacket on the filter state: every table completed
by this packet is dispatched to handleTable, in order. -/
def ProgramFilter.FeedTables (opt : ProgramFilterOption) :
    ProgramFilter → List Table → ProgramFilter × List DemuxOp
  | st, [] => (st, [])
  | st, t :: ts =>
    let r := ProgramFilter.HandleTable opt st t
    let r2 := ProgramFilter.FeedTables opt r.1 ts
    (r2.1, r.2 ++ r2.2)

/-- Outcome of forwarding a list of buffered packets to the sink one by
one, stopping at the first rejected one: the packets actually handed to
the sink, the next sink call index, and whether every call returned true. -/
structure FlushOut where
  fwd : List TSPacket
  k : Nat
  ok : Bool
deriving DecidableEq

/-- Forward packets to the sink in order; a false sink return aborts the
rest (the rejected packet was still handed to the sink). -/
def FlushTo (sink : Nat → Bool) : Nat → List TSPacket → FlushOut
  | k, [] => { fwd := [], k := k, ok := true }
  | k, p :: ps =>
    if sink k then
      let r := FlushTo sink (k + 1) ps
      { fwd := p :: r.fwd, k := r.k, ok := r.ok }
    else
      { fwd := [p], k := k + 1, ok := false }

/-- The transition block of ProgramFilter::WaitReady (the code after the
start PCR has been reached): flush the buffered PAT section unless
pre_streaming, flush the buffered PMT section, enter kStreaming and
forward the triggering packet.  The C++ PMT loop calls clear() inside the
range-for body after each successful forward; the range-for iterators are
captured at loop entry and vector::clear keeps the storage, so the loop
still visits every packet of the section captured at entry, and the buffer
is left empty as soon as the first forward succeeded. -/
def ProgramFilter.StartStreaming (opt : ProgramFilterOption) (sink : Nat → Bool)
    (k : Nat) (st : ProgramFilter) (pkt : TSPacket) : Step :=
  let patFlush :=
    if opt.pre_streaming then { fwd := [], k := k, ok := true }
    else FlushTo sink k st.last_pat_packets
  if patFlush.ok = false then
    { pf := st, fwd := patFlush.fwd, ret := false, calls := patFlush.k }
  else
    let st2 := if opt.pre_streaming then st else { st with last_pat_packets := [] }
    let l := st2.last_pmt_packets
    let pmtFlush := FlushTo sink patFlush.k l
    let st3 :=
      { st2 with
        last_pmt_packets := if l = [] then l else if sink patFlush.k then [] else l }
    if pmtFlush.ok = false then
      { pf := st3, fwd := patFlush.fwd ++ pmtFlush.fwd, ret := false, calls := pmtFlush.k }
    else
      let st4 := { st3 with state := PFState.streaming }
      { pf := st4
        fwd := patFlush.fwd ++ pmtFlush.fwd ++ [pkt]
        ret := sink pmtFlush.k
        calls := pmtFlush.k + 1 }

/-- The packet classification step of ProgramFilter::WaitReady: append a
PAT-PID packet to the PAT buffer (clearing it first on PUSI), append a
packet on the tracked PMT PID to the PMT buffer likewise, drop the rest.
This function covers the non-pre-streaming path; the live PAT forwarding
of pre_streaming is handled in WaitReady itself. -/
def ProgramFilter.BufferPsi (st : ProgramFilter) (pkt : TSPacket) :
    ProgramFilter :=
  if pkt.pid = patPid then
    { st with last_pat_packets :=
        (if pkt.pusi then [] else st.last_pat_packets) ++ [pkt] }
  else if st.pmt_pid ≠ nullPid ∧ pkt.pid = st.pmt_pid then
    { st with last_pmt_packets :=
        (if pkt.pusi then [] else st.last_pmt_packets) ++ [pkt] }
  else st

/-- ProgramFilter::WaitReady (program_filter.hh). -/
def ProgramFilter.WaitReady (opt : ProgramFilterOption) (sink : Nat → Bool)
    (k : Nat) (st : ProgramFilter) (pkt : TSPacket) : Step :=
  if st.stop then { pf := st, fwd := [], ret := false, calls := k }
  else if pkt.pid = patPid ∧ opt.pre_streaming then
    { pf := st, fwd := [pkt], ret := sink k, calls := k + 1 }
  else
    let st1 := ProgramFilter.BufferPsi st pkt
    if st1.pcr_pid_ready = false ∨ st1.pcr_range_ready = false then
      { pf := st1, fwd := [], ret := true, calls := k }
    else if pkt.pid ≠ st1.pcr_pid then
      { pf := st1, fwd := [], ret := true, calls := k }
    else
      match pkt.pcr with
      | none => { pf := st1, fwd := [], ret := true, calls := k }
      | some pcr =>
        if 0 ≤ ComparePcr pcr st1.end_pcr then
          { pf := st1, fwd := [], ret := false, calls := k }
        else if ComparePcr pcr st1.start_pcr < 0 then
          { pf := st1, fwd := [], ret := true, calls := k }
        else
          ProgramFilter.StartStreaming opt sink k st1 pkt

/-- ProgramFilter::DoStreaming (program_filter.hh). -/
def ProgramFilter.DoStreaming (sink : Nat → Bool) (k : Nat)
    (st : ProgramFilter) (pkt : TSPacket) : Step :=
  if st.stop then { pf := st, fwd := [], ret := false, calls := k }
  else if pkt.pid = st.pcr_pid then
    match pkt.pcr with
    | none => { pf := st, fwd := [pkt], ret := sink k, calls := k + 1 }
    | some pcr =>
      if 0 ≤ ComparePcr pcr st.end_pcr then
        { pf := st, fwd := [], ret := false, calls := k }
      else
        { pf := st, fwd := [pkt], ret := sink k, calls := k + 1 }
  else { pf := st, fwd := [pkt], ret := sink k, calls := k + 1 }

/-- One HandlePacket call: the packet together with the parsed tables the
demux completes while this packet is fed. -/
structure PFInput where
  tables : List Table
  pkt : TSPacket
deriving DecidableEq

/-- ProgramFilter::HandlePacket (program_filter.hh), assuming a sink is
connected: feed the demux, then dispatch on the state. -/
def ProgramFilter.HandlePacket (opt : ProgramFilterOption) (sink : Nat → Bool)
    (k : Nat) (st : ProgramFilter) (inp : PFInput) : Step :=
  let st1 := (ProgramFilter.FeedTables opt st inp.tables).1
  match st1.state with
  | PFState.waitReady => ProgramFilter.WaitReady opt sink k st1 inp.pkt
  | PFState.streaming => ProgramFilter.DoStreaming sink k st1 inp.pkt

/-- Trace of a sequence of HandlePacket calls: one Step per call. -/
def ProgramFilter.RunTrace (opt : ProgramFilterOption) (sink : Nat → Bool) :
    ProgramFilter → Nat → List PFInput → List Step
  | _, _, [] => []
  | st, k, i :: is =>
    let s := ProgramFilter.HandlePacket opt sink k st i
    s :: ProgramFilter.RunTrace opt sink s.pf s.calls is

/-- Final filter state and sink call count after a sequence of
HandlePacket calls. -/
def ProgramFilter.RunState (opt : ProgramFilterOption) (sink : Nat → Bool) :
    ProgramFilter → Nat → List PFInput → ProgramFilter × Nat
  | st, k, [] => (st, k)
  | st, k, i :: is =>
    let s := ProgramFilter.HandlePacket opt sink k st i
    ProgramFilter.RunState opt sink s.pf s.calls is

/-- Mutable state of an AirtimeTracker. -/
structure AirtimeTracker where
  done : Bool
deriving DecidableEq

/-- AirtimeTracker::WriteEventInfo (airtime_tracker.hh): the emitted JSON
record, as the ordered list of its members.  Values are Int: nid, tsid,
sid, eid are unsigned 16-bit values, startTime and duration signed 64-bit
milliseconds.  unixEpoch stands for ts::Time::UnixEpoch in the absolute
millisecond scale of the model. -/
def AirtimeTracker.WriteEventInfo (unixEpoch : Int) (eit : EitTable)
    (event : EitEvent) : List (String × Int) :=
  [("nid", (eit.onetw_id : Int)),
   ("tsid", (eit.ts_id : Int)),
   ("sid", (eit.service_id : Int)),
   ("eid", (event.event_id : Int)),
   ("startTime", event.start_time - unixEpoch),
   ("duration", event.duration * 1000)]

/-- AirtimeTracker::HandleEit (airtime_tracker.hh): returns the new
tracker state and the JSON records emitted (via FeedDocument). -/
def AirtimeTracker.HandleEit (opt : AirtimeTrackerOption) (unixEpoch : Int)
    (t : EitTable) (a : AirtimeTracker) :
    AirtimeTracker × List (List (String × Int)) :=
  if t.valid = false then (a, [])
  else if t.service_id ≠ opt.sid then (a, [])
  else
    match t.events with
    | [] => ({ a with done := true }, [])
    | present :: rest =>
      if present.event_id = opt.eid then
        (a, [AirtimeTracker.WriteEventInfo unixEpoch t present])
      else
        match rest with
        | [] => ({ a with done := true }, [])
        | following :: _ =>
          if following.event_id = opt.eid then
            (a, [AirtimeTracker.WriteEventInfo unixEpoch t following])
          else ({ a with done := true }, [])

/-- AirtimeTracker::handleTable: only TID_EIT_PF_ACT is handled; every
other table id falls into the default branch. -/
def AirtimeTracker.HandleTable (opt : AirtimeTrackerOption) (unixEpoch : Int)
    (a : AirtimeTracker) : Table → AirtimeTracker × List (List (String × Int))
  | Table.eit t => AirtimeTracker.HandleEit opt unixEpoch t a
  | _ => (a, [])

/-- Effect of demux_.feedPacket on the tracker. -/
def AirtimeTracker.FeedTables (opt : AirtimeTrackerOption) (unixEpoch : Int) :
    AirtimeTracker → List Table → AirtimeTracker × List (List (String × Int))
  | a, [] => (a, [])
  | a, t :: ts =>
    let r := AirtimeTracker.HandleTable opt unixEpoch a t
    let r2 := AirtimeTracker.FeedTables opt unixEpoch r.1 ts
    (r2.1, r.2 ++ r2.2)

/-- AirtimeTracker::HandlePacket (airtime_tracker.hh): feed the demux,
then return false when done. -/
def AirtimeTracker.HandlePacket (opt : AirtimeTrackerOption) (unixEpoch : Int)
    (a : AirtimeTracker) (inp : PFInput) :
    AirtimeTracker × List (List (String × Int)) × Bool :=
  let r := AirtimeTracker.FeedTables opt unixEpoch a inp.tables
  (r.1, r.2, if r.1.done then false else true)

/-! ### PCR arithmetic lemmas -/

lemma pcrWrapAux_emod (n : Nat) : ∀ y : Int,
    PcrWrapAux n y % kPcrUpperBound = y % kPcrUpperBound := by
  induction n with
  | zero => intro y; rfl
  | succ n ih =>
    intro y
    simp only [PcrWrapAux]
    split
    · rw [ih]; simp only [kPcrUpperBound]; omega
    · rfl

lemma pcrWrapAux_of_nonneg (n : Nat) (y : Int) (h : 0 ≤ y) : PcrWrapAux n y = y := by
  cases n with
  | zero => rfl
  | succ n => simp only [PcrWrapAux]; rw [if_neg (by omega)]

lemma pcrWrapAux_fuel : ∀ (n m : Nat) (y : Int),
    -y ≤ n → -y ≤ m → PcrWrapAux n y = PcrWrapAux m y := by
  intro n
  induction n with
  | zero =>
    intro m y h1 _
    rw [pcrWrapAux_of_nonneg _ _ (by omega), pcrWrapAux_of_nonneg _ _ (by omega)]
  | succ n ih =>
    intro m y h1 h2
    by_cases hy : y < 0
    · cases m with
      | zero => omega
      | succ m =>
        simp only [PcrWrapAux, if_pos hy]
        apply ih
        · simp only [kPcrUpperBound]; omega
        · simp only [kPcrUpperBound]; omega
    · rw [pcrWrapAux_of_nonneg _ _ (by omega), pcrWrapAux_of_nonneg _ _ (by omega)]

/-- The fuel-based PcrWrapNonneg satisfies the exact while-loop equation of
ConvertTimeToPcr. -/
lemma pcrWrapNonneg_eq (x : Int) :
    PcrWrapNonneg x = if x < 0 then PcrWrapNonneg (x + kPcrUpperBound) else x := by
  unfold PcrWrapNonneg
  by_cases hx : x < 0
  · rw [if_pos hx]
    obtain ⟨n, hn⟩ : ∃ n, (-x).toNat = n + 1 := ⟨(-x).toNat - 1, by omega⟩
    rw [hn]
    simp only [PcrWrapAux, if_pos hx]
    apply pcrWrapAux_fuel
    · simp only [kPcrUpperBound]; omega
    · simp only [kPcrUpperBound]; omega
  · rw [if_neg hx, pcrWrapAux_of_nonneg _ _ (by omega)]

lemma pcrWrapNonneg_emod (x : Int) :
    PcrWrapNonneg x % kPcrUpperBound = x % kPcrUpperBound :=
  pcrWrapAux_emod _ x

lemma comparePcr_self (p : Int) : ComparePcr p p = 0 := by
  have h : (0 : Int) < kPcrUpperBound := by norm_num [kPcrUpperBound]
  simp only [ComparePcr]
  have h1 : p - p = 0 := sub_self p
  have h2 : p - (kPcrUpperBound + p) = -kPcrUpperBound := by ring
  rw [h1, h2, if_pos]
  simp only [kPcrUpperBound]
  decide

lemma flushTo_allTrue (ps : List TSPacket) : ∀ k : Nat,
    FlushTo (fun _ => true) k ps = { fwd := ps, k := k + ps.length, ok := true } := by
  induction ps with
  | nil => intro k; simp [FlushTo]
  | cons p ps ih =>
    intro k
    simp [FlushTo, ih]
    omega

/-! ### Monotonicity of the control state -/

/-- Monotone ordering on the control fields of the filter: Streaming is
never left, and stop and the two ready flags are never reset. -/
def ProgramFilter.MonoLe (st st2 : ProgramFilter) : Prop :=
  (st.state = PFState.streaming → st2.state = PFState.streaming)
  ∧ (st.stop = true → st2.stop = true)
  ∧ (st.pcr_pid_ready = true → st2.pcr_pid_ready = true)
  ∧ (st.pcr_range_ready = true → st2.pcr_range_ready = true)

lemma monoLe_refl (st : ProgramFilter) : ProgramFilter.MonoLe st st :=
  ⟨fun h => h, fun h => h, fun h => h, fun h => h⟩

lemma monoLe_trans {a b c : ProgramFilter}
    (h1 : ProgramFilter.MonoLe a b) (h2 : ProgramFilter.MonoLe b c) :
    ProgramFilter.MonoLe a c :=
  ⟨fun h => h2.1 (h1.1 h), fun h => h2.2.1 (h1.2.1 h),
   fun h => h2.2.2.1 (h1.2.2.1 h), fun h => h2.2.2.2 (h1.2.2.2 h)⟩

/-- Table handlers preserve the state tag exactly and never reset stop or
the ready flags. -/
lemma handleTable_fields (opt : ProgramFilterOption) (st : ProgramFilter)
    (tb : Table) :
    (ProgramFilter.HandleTable opt st tb).1.state = st.state
    ∧ (st.stop = true → (ProgramFilter.HandleTable opt st tb).1.stop = true)
    ∧ (st.pcr_pid_ready = true →
        (ProgramFilter.HandleTable opt st tb).1.pcr_pid_ready = true)
    ∧ (st.pcr_range_ready = true →
        (ProgramFilter.HandleTable opt st tb).1.pcr_range_ready = true) := by
  cases tb <;>
    simp only [ProgramFilter.HandleTable, ProgramFilter.HandlePat,
      ProgramFilter.HandlePmt, ProgramFilter.HandleEit,
      ProgramFilter.UpdatePcrRange] <;>
    (repeat' split) <;> simp_all

lemma feedTables_fields (opt : ProgramFilterOption) :
    ∀ (ts : List Table) (st : ProgramFilter),
    (ProgramFilter.FeedTables opt st ts).1.state = st.state
    ∧ (st.stop = true → (ProgramFilter.FeedTables opt st ts).1.stop = true)
    ∧ (st.pcr_pid_ready = true →
        (ProgramFilter.FeedTables opt st ts).1.pcr_pid_ready = true)
    ∧ (st.pcr_range_ready = true →
        (ProgramFilter.FeedTables opt st ts).1.pcr_range_ready = true) := by
  intro ts
  induction ts with
  | nil => intro st; exact ⟨rfl, fun h => h, fun h => h, fun h => h⟩
  | cons t ts ih =>
    intro st
    have h1 := handleTable_fields opt st t
    have h2 := ih (ProgramFilter.HandleTable opt st t).1
    simp only [ProgramFilter.FeedTables]
    exact ⟨h2.1.trans h1.1, fun h => h2.2.1 (h1.2.1 h),
      fun h => h2.2.2.1 (h1.2.2.1 h), fun h => h2.2.2.2 (h1.2.2.2 h)⟩

/-- BufferPsi changes only the two packet buffers. -/
lemma bufferPsi_fields (st : ProgramFilter) (pkt : TSPacket) :
    (ProgramFilter.BufferPsi st pkt).state = st.state
    ∧ (ProgramFilter.BufferPsi st pkt).stop = st.stop
    ∧ (ProgramFilter.BufferPsi st pkt).pcr_pid_ready = st.pcr_pid_ready
    ∧ (ProgramFilter.BufferPsi st pkt).pcr_range_ready = st.pcr_range_ready
    ∧ (ProgramFilter.BufferPsi st pkt).pcr_pid = st.pcr_pid
    ∧ (ProgramFilter.BufferPsi st pkt).pmt_pid = st.pmt_pid
    ∧ (ProgramFilter.BufferPsi st pkt).start_pcr = st.start_pcr
    ∧ (ProgramFilter.BufferPsi st pkt).end_pcr = st.end_pcr := by
  simp only [ProgramFilter.BufferPsi]
  (repeat' split) <;> simp_all

/-- StartStreaming changes only the buffers and the state tag, which it
can only set to Streaming. -/
lemma startStreaming_fields (opt : ProgramFilterOption) (sink : Nat → Bool)
    (k : Nat) (st : ProgramFilter) (pkt : TSPacket) :
    ((ProgramFilter.StartStreaming opt sink k st pkt).pf.state = st.state
      ∨ (ProgramFilter.StartStreaming opt sink k st pkt).pf.state
          = PFState.streaming)
    ∧ (ProgramFilter.StartStreaming opt sink k st pkt).pf.stop = st.stop
    ∧ (ProgramFilter.StartStreaming opt sink k st pkt).pf.pcr_pid_ready
        = st.pcr_pid_ready
    ∧ (ProgramFilter.StartStreaming opt sink k st pkt).pf.pcr_range_ready
        = st.pcr_range_ready := by
  simp only [ProgramFilter.StartStreaming]
  (repeat' split) <;> simp_all

/-- WaitReady only moves the state tag forward and never touches stop or
the ready flags. -/
lemma waitReady_mono (opt : ProgramFilterOption) (sink : Nat → Bool) (k : Nat)
    (st : ProgramFilter) (pkt : TSPacket) :
    (st.state = PFState.streaming →
      (ProgramFilter.WaitReady opt sink k st pkt).pf.state = PFState.streaming)
    ∧ (ProgramFilter.WaitReady opt sink k st pkt).pf.stop = st.stop
    ∧ (ProgramFilter.WaitReady opt sink k st pkt).pf.pcr_pid_ready = st.pcr_pid_ready
    ∧ (ProgramFilter.WaitReady opt sink k st pkt).pf.pcr_range_ready
        = st.pcr_range_ready := by
  have hb := bufferPsi_fields st pkt
  have hs := startStreaming_fields opt sink k (ProgramFilter.BufferPsi st pkt) pkt
  simp only [ProgramFilter.WaitReady]
  (repeat' split) <;>
    first
    | (simp_all; done)
    | (refine ⟨fun h => ?_, ?_, ?_, ?_⟩
       · rcases hs.1 with h1 | h1
         · rw [h1, hb.1]; exact h
         · exact h1
       · rw [hs.2.1, hb.2.1]
       · rw [hs.2.2.1, hb.2.2.1]
       · rw [hs.2.2.2, hb.2.2.2.1])

lemma doStreaming_pf (sink : Nat → Bool) (k : Nat) (st : ProgramFilter)
    (pkt : TSPacket) : (ProgramFilter.DoStreaming sink k st pkt).pf = st := by
  simp only [ProgramFilter.DoStreaming]
  (repeat' split) <;> rfl

lemma handlePacket_mono (opt : ProgramFilterOption) (sink : Nat → Bool) (k : Nat)
    (st : ProgramFilter) (inp : PFInput) :
    ProgramFilter.MonoLe st (ProgramFilter.HandlePacket opt sink k st inp).pf := by
  have hft := feedTables_fields opt inp.tables st
  simp only [ProgramFilter.HandlePacket]
  cases hs : (ProgramFilter.FeedTables opt st inp.tables).1.state with
  | waitReady =>
    simp only
    have hw := waitReady_mono opt sink k (ProgramFilter.FeedTables opt st inp.tables).1 inp.pkt
    refine ⟨fun h => ?_, fun h => ?_, fun h => ?_, fun h => ?_⟩
    · rw [hft.1, h] at hs; cases hs
    · rw [hw.2.1]; exact hft.2.1 h
    · rw [hw.2.2.1]; exact hft.2.2.1 h
    · rw [hw.2.2.2]; exact hft.2.2.2 h
  | streaming =>
    simp only [doStreaming_pf]
    exact ⟨fun _ => hs, hft.2.1, hft.2.2.1, hft.2.2.2⟩

/-- The stop flag makes HandlePacket inert: nothing is forwarded, false is
returned, and stop stays set. -/
lemma handlePacket_stopped (opt : ProgramFilterOption) (sink : Nat → Bool)
    (k : Nat) (st : ProgramFilter) (inp : PFInput) (h : st.stop = true) :
    (ProgramFilter.HandlePacket opt sink k st inp).fwd = []
    ∧ (ProgramFilter.HandlePacket opt sink k st inp).ret = false
    ∧ (ProgramFilter.HandlePacket opt sink k st inp).pf.stop = true := by
  have hft := (feedTables_fields opt inp.tables st).2.1 h
  simp only [ProgramFilter.HandlePacket]
  cases hs : (ProgramFilter.FeedTables opt st inp.tables).1.state <;>
    simp only [hs] <;>
    simp [ProgramFilter.WaitReady, ProgramFilter.DoStreaming, hft]

/-- C10: across any HandlePacket sequence the control state is monotone:
Streaming is never left, and stop, pcr_pid_ready and pcr_range_ready are
never reset once true. -/
theorem c10_control_state_monotone (opt : ProgramFilterOption)
    (sink : Nat → Bool) : ∀ (inputs : List PFInput) (st : ProgramFilter) (k : Nat),
    ProgramFilter.MonoLe st (ProgramFilter.RunState opt sink st k inputs).1 := by
  intro inputs
  induction inputs with
  | nil => intro st k; exact monoLe_refl st
  | cons i is ih =>
    intro st k
    simp only [ProgramFilter.RunState]
    exact monoLe_trans (handlePacket_mono opt sink k st i) (ih _ _)

/-- Witness for C10 on a concrete Streaming state with all flags set. -/
theorem c10_witness :
    (ProgramFilter.RunState
        { sid := 1, eid := 4096, clock_pcr := 0, clock_time := 0,
          start_margin := 0, end_margin := 0, pre_streaming := false }
        (fun _ => true)
        { state := PFState.streaming, last_pat_packets := [],
          last_pmt_packets := [], pmt_pid := 256, pcr_pid := 512,
          start_pcr := 0, end_pcr := 90000, pcr_pid_ready := true,
          pcr_range_ready := true, stop := false }
        0 [{ tables := [], pkt := { pid := 33, pusi := false, pcr := none } }]).1.state
      = PFState.streaming
    ∧ (ProgramFilter.RunState
        { sid := 1, eid := 4096, clock_pcr := 0, clock_time := 0,
          start_margin := 0, end_margin := 0, pre_streaming := false }
        (fun _ => true)
        { state := PFState.streaming, last_pat_packets := [],
          last_pmt_packets := [], pmt_pid := 256, pcr_pid := 512,
          start_pcr := 0, end_pcr := 90000, pcr_pid_ready := true,
          pcr_range_ready := true, stop := false }
        0 [{ tables := [], pkt := { pid := 33, pusi := false, pcr := none } }]).1.pcr_pid_ready
      = true := by
  refine ⟨(c10_control_state_monotone _ _ _ _ _).1 rfl, ?_⟩
  exact (c10_control_state_monotone
    { sid := 1, eid := 4096, clock_pcr := 0, clock_time := 0,
      start_margin := 0, end_margin := 0, pre_streaming := false }
    (fun _ => true)
    [{ tables := [], pkt := { pid := 33, pusi := false, pcr := none } }]
    { state := PFState.streaming, last_pat_packets := [],
      last_pmt_packets := [], pmt_pid := 256, pcr_pid := 512,
      start_pcr := 0, end_pcr := 90000, pcr_pid_ready := true,
      pcr_range_ready := true, stop := false } 0).2.2.1 rfl

/-! ### The Streaming transition -/

/-- With a sink that accepts everything, StartStreaming always enters the
Streaming state. -/
lemma startStreaming_allTrue_state (opt : ProgramFilterOption) (k : Nat)
    (st : ProgramFilter) (pkt : TSPacket) :
    (ProgramFilter.StartStreaming opt (fun _ => true) k st pkt).pf.state
      = PFState.streaming := by
  cases hpre : opt.pre_streaming <;>
    simp [ProgramFilter.StartStreaming, hpre, flushTo_allTrue]

/-- Necessary conditions for WaitReady to leave the WaitReady state: the
gating checks must all have passed. -/
lemma waitReady_streaming_necessity (opt : ProgramFilterOption)
    (sink : Nat → Bool) (k : Nat) (st : ProgramFilter) (pkt : TSPacket)
    (hst : st.state = PFState.waitReady)
    (h : (ProgramFilter.WaitReady opt sink k st pkt).pf.state
          = PFState.streaming) :
    st.stop = false ∧ pkt.pid = st.pcr_pid ∧ st.pcr_pid_ready = true
    ∧ st.pcr_range_ready = true
    ∧ ∃ p, pkt.pcr = some p ∧ 0 ≤ ComparePcr p st.start_pcr
        ∧ ComparePcr p st.end_pcr < 0 := by
  have hb := bufferPsi_fields st pkt
  revert h
  simp only [ProgramFilter.WaitReady]
  (repeat' split) <;> intro h <;> simp_all

/-- C1: HandlePacket moves the state from WaitReady to Streaming only on
a packet on the current pcr_pid that carries a PCR inside
[start_pcr, end_pcr) (in ComparePcr order) while both ready flags are
set; and, conversely, with an accepting sink a PCR exactly equal to
start_pcr triggers the transition.  The gating conditions refer to the
state after the tables fed by this packet have been dispatched, as in the
source, where feedPacket runs before the gating logic. -/
theorem c1_streaming_entry (opt : ProgramFilterOption) (sink : Nat → Bool)
    (k : Nat) (st : ProgramFilter) (inp : PFInput) :
    (st.state = PFState.waitReady →
      (ProgramFilter.HandlePacket opt sink k st inp).pf.state = PFState.streaming →
      (ProgramFilter.FeedTables opt st inp.tables).1.pcr_pid_ready = true
      ∧ (ProgramFilter.FeedTables opt st inp.tables).1.pcr_range_ready = true
      ∧ inp.pkt.pid = (ProgramFilter.FeedTables opt st inp.tables).1.pcr_pid
      ∧ ∃ p, inp.pkt.pcr = some p
          ∧ 0 ≤ ComparePcr p (ProgramFilter.FeedTables opt st inp.tables).1.start_pcr
          ∧ ComparePcr p (ProgramFilter.FeedTables opt st inp.tables).1.end_pcr < 0)
    ∧ (st.state = PFState.waitReady → st.stop = false →
        st.pcr_pid_ready = true → st.pcr_range_ready = true →
        st.pcr_pid ≠ patPid → inp.tables = [] → inp.pkt.pid = st.pcr_pid →
        inp.pkt.pcr = some st.start_pcr →
        ComparePcr st.start_pcr st.end_pcr < 0 →
        (ProgramFilter.HandlePacket opt (fun _ => true) k st inp).pf.state
          = PFState.streaming) := by
  constructor
  · intro hst hstr
    have hfeed := feedTables_fields opt inp.tables st
    have hstT : (ProgramFilter.FeedTables opt st inp.tables).1.state
        = PFState.waitReady := hfeed.1.trans hst
    simp only [ProgramFilter.HandlePacket, hstT] at hstr
    have hn := waitReady_streaming_necessity opt sink k
      (ProgramFilter.FeedTables opt st inp.tables).1 inp.pkt hstT hstr
    exact ⟨hn.2.2.1, hn.2.2.2.1, hn.2.1, hn.2.2.2.2⟩
  · intro hst h1 h2 h3 h6 htab hpid hpcr hcmp
    obtain ⟨hbs, hbstop, hbr1, hbr2, hbpcr, hbpmt, hbsp, hbep⟩ :=
      bufferPsi_fields st inp.pkt
    simp only [ProgramFilter.HandlePacket, htab, ProgramFilter.FeedTables, hst]
    simp only [ProgramFilter.WaitReady]
    rw [if_neg (by simp [h1])]
    rw [if_neg (by intro hc; rw [hpid] at hc; exact h6 hc.1)]
    rw [if_neg (by simp [hbr1, hbr2, h2, h3])]
    rw [if_neg (by simp [hpid, hbpcr])]
    simp only [hpcr]
    rw [if_neg (by rw [hbep]; omega)]
    rw [if_neg (by rw [hbsp, comparePcr_self]; omega)]
    exact startStreaming_allTrue_state opt k (ProgramFilter.BufferPsi st inp.pkt)
      inp.pkt

/-- Options of a filter recording service 1, event 4096, with the
reference clock anchored at PCR 0 / time 0 and no margins. -/
def wOpt : ProgramFilterOption :=
  { sid := 1, eid := 4096, clock_pcr := 0, clock_time := 0,
    start_margin := 0, end_margin := 0, pre_streaming := false }

/-- A one-packet PAT section on the PAT PID. -/
def wPatPkt : TSPacket := { pid := 0, pusi := true, pcr := none }

/-- A one-packet PMT section on PID 256. -/
def wPmtPkt : TSPacket := { pid := 256, pusi := true, pcr := none }

/-- A WaitReady state with both ready flags set, PCR window [0, 90000),
PMT PID 256, PCR PID 512, and one buffered PAT and PMT packet each. -/
def wReadySt : ProgramFilter :=
  { state := PFState.waitReady, last_pat_packets := [wPatPkt],
    last_pmt_packets := [wPmtPkt], pmt_pid := 256, pcr_pid := 512,
    start_pcr := 0, end_pcr := 90000, pcr_pid_ready := true,
    pcr_range_ready := true, stop := false }

/-- Witness for C1: a PCR packet carrying exactly start_pcr enters
Streaming. -/
theorem c1_witness :
    (ProgramFilter.HandlePacket wOpt (fun _ => true) 0 wReadySt
        { tables := [], pkt := { pid := 512, pusi := false, pcr := some 0 } }).pf.state
      = PFState.streaming :=
  (c1_streaming_entry wOpt (fun _ => true) 0 wReadySt
      { tables := [], pkt := { pid := 512, pusi := false, pcr := some 0 } }).2
    rfl rfl rfl rfl (by decide) rfl rfl rfl (by decide)

/-- C2: at the WaitReady-to-Streaming transition with pre_streaming
disabled and an accepting sink, the filter forwards the buffered PAT
section, then the buffered PMT section, then the triggering PCR packet,
clears both buffers and returns the sink result. -/
theorem c2_transition_flush (opt : ProgramFilterOption) (k : Nat)
    (st : ProgramFilter) (pkt : TSPacket) (p : Int)
    (h1 : st.stop = false) (h2 : opt.pre_streaming = false)
    (h3 : st.pcr_pid_ready = true) (h4 : st.pcr_range_ready = true)
    (h5 : pkt.pid = st.pcr_pid) (h6 : st.pcr_pid ≠ patPid)
    (h7 : st.pcr_pid ≠ st.pmt_pid) (h8 : pkt.pcr = some p)
    (h9 : 0 ≤ ComparePcr p st.start_pcr) (h10 : ComparePcr p st.end_pcr < 0) :
    ProgramFilter.WaitReady opt (fun _ => true) k st pkt =
      { pf := { st with
          last_pat_packets := [], last_pmt_packets := [],
          state := PFState.streaming },
        fwd := st.last_pat_packets ++ st.last_pmt_packets ++ [pkt],
        ret := true,
        calls := k + st.last_pat_packets.length
          + st.last_pmt_packets.length + 1 } := by
  have hbuf : ProgramFilter.BufferPsi st pkt = st := by
    simp only [ProgramFilter.BufferPsi]
    rw [if_neg (by rw [h5]; exact h6),
        if_neg (by intro hc; rw [h5] at hc; exact h7 hc.2)]
  simp only [ProgramFilter.WaitReady, hbuf]
  rw [if_neg (by simp [h1])]
  rw [if_neg (by intro hc; rw [h5] at hc; exact h6 hc.1)]
  rw [if_neg (by simp [h3, h4])]
  rw [if_neg (by simp [h5])]
  simp only [h8]
  rw [if_neg (by omega)]
  rw [if_neg (by omega)]
  simp only [ProgramFilter.StartStreaming, h2, flushTo_allTrue, Bool.false_eq_true,
    if_false]
  rcases hl : st.last_pmt_packets with _ | ⟨q, qs⟩ <;>
    simp [Step.mk.injEq, hl]

/-- The PCR packet that triggers the transition in the witness runs. -/
def wTrigPkt : TSPacket := { pid := 512, pusi := false, pcr := some 0 }

/-- Witness for C2 at the concrete ready state. -/
theorem c2_witness :
    ProgramFilter.WaitReady wOpt (fun _ => true) 0 wReadySt wTrigPkt =
      { pf := { wReadySt with
          last_pat_packets := [], last_pmt_packets := [],
          state := PFState.streaming },
        fwd := wReadySt.last_pat_packets ++ wReadySt.last_pmt_packets
          ++ [wTrigPkt],
        ret := true,
        calls := 0 + wReadySt.last_pat_packets.length
          + wReadySt.last_pmt_packets.length + 1 } :=
  c2_transition_flush wOpt 0 wReadySt wTrigPkt 0 rfl rfl rfl rfl rfl
    (by decide) (by decide) rfl (by decide) (by decide)

/-- A PCR-PID packet that carries no PCR value. -/
def wNoPcrPkt : TSPacket := { pid := 512, pusi := false, pcr := none }

/-- C6: a packet on pcr_pid without a PCR value is handled leniently: in
WaitReady (with both ready flags set and stop clear) the call returns
true without forwarding anything; in Streaming the packet is forwarded
and the sink result is returned. -/
theorem c6_missing_pcr_lenient (opt : ProgramFilterOption) (sink : Nat → Bool)
    (k : Nat) (st : ProgramFilter) (pkt : TSPacket)
    (h1 : st.stop = false) (h2 : st.pcr_pid_ready = true)
    (h3 : st.pcr_range_ready = true) (h4 : pkt.pid = st.pcr_pid)
    (h5 : pkt.pcr = none) (h6 : st.pcr_pid ≠ patPid) :
    ((ProgramFilter.WaitReady opt sink k st pkt).fwd = []
      ∧ (ProgramFilter.WaitReady opt sink k st pkt).ret = true)
    ∧ ((ProgramFilter.DoStreaming sink k st pkt).fwd = [pkt]
      ∧ (ProgramFilter.DoStreaming sink k st pkt).ret = sink k) := by
  constructor
  · obtain ⟨hbs, hbstop, hbr1, hbr2, hbpcr, hbpmt, hbsp, hbep⟩ :=
      bufferPsi_fields st pkt
    simp only [ProgramFilter.WaitReady]
    rw [if_neg (by simp [h1])]
    rw [if_neg (by intro hc; rw [h4] at hc; exact h6 hc.1)]
    rw [if_neg (by simp [hbr1, hbr2, h2, h3])]
    rw [if_neg (by simp [h4, hbpcr])]
    simp [h5]
  · simp only [ProgramFilter.DoStreaming]
    rw [if_neg (by simp [h1]), if_pos h4]
    simp [h5]

/-- Witness for C6 at the concrete ready state. -/
theorem c6_witness :
    ((ProgramFilter.WaitReady wOpt (fun _ => true) 0 wReadySt wNoPcrPkt).fwd = []
      ∧ (ProgramFilter.WaitReady wOpt (fun _ => true) 0 wReadySt wNoPcrPkt).ret
          = true)
    ∧ ((ProgramFilter.DoStreaming (fun _ => true) 0 wReadySt wNoPcrPkt).fwd
          = [wNoPcrPkt]
      ∧ (ProgramFilter.DoStreaming (fun _ => true) 0 wReadySt wNoPcrPkt).ret
          = (fun _ => true) 0) :=
  c6_missing_pcr_lenient wOpt (fun _ => true) 0 wReadySt wNoPcrPkt
    rfl rfl rfl rfl rfl (by decide)

/-- A run that reaches the gating checks: a PAT naming PMT PID 256, a PMT
naming PCR PID 512, an EIT whose present event is the target (start time
0, duration 1 s, hence PCR window [0, 90000)), then a PCR packet at the
window end (PCR 90000, terminal) followed by one inside the window
(PCR 0). -/
def ceInputs : List PFInput :=
  [ { tables := [Table.pat
        { sourcePid := 0, valid := true, ts_id := 1, pmts := [(1, 256)] }],
      pkt := wPatPkt },
    { tables := [Table.pmt { valid := true, service_id := 1, pcr_pid := 512 }],
      pkt := wPmtPkt },
    { tables := [Table.eit
        { valid := true, onetw_id := 2, ts_id := 3, service_id := 1,
          events := [{ event_id := 4096, start_time := 0, duration := 1 }] }],
      pkt := { pid := 768, pusi := false, pcr := none } },
    { tables := [], pkt := { pid := 512, pusi := false, pcr := some 90000 } },
    { tables := [], pkt := { pid := 512, pusi := false, pcr := some 0 } } ]

/-- Counterexample to C3: in the run ceInputs from the initial state, the
fourth HandlePacket call returns false (end PCR reached, stop flag not
set), and the fifth call nevertheless forwards three packets (the
buffered PAT and PMT sections and the triggering PCR packet). -/
theorem c3_counterexample :
    ((ProgramFilter.RunTrace wOpt (fun _ => true) ProgramFilter.init 0 ceInputs).map
        Step.ret = [true, true, true, false, true])
    ∧ ((ProgramFilter.RunTrace wOpt (fun _ => true) ProgramFilter.init 0 ceInputs).map
        (fun s => s.fwd)
       = [[], [], [], [],
          [wPatPkt, wPmtPkt, { pid := 512, pusi := false, pcr := some 0 }]]) := by
  decide

/-- C3 (amended): a false return caused by the stop flag is latched: once
stop is set, every subsequent HandlePacket call forwards nothing and
returns false.  (A false return caused by reaching the end PCR or by a
sink rejection is not latched, as c3_counterexample shows.) -/
theorem c3_amended_stop_is_latched (opt : ProgramFilterOption)
    (sink : Nat → Bool) :
    ∀ (inputs : List PFInput) (st : ProgramFilter) (k : Nat), st.stop = true →
    ∀ s ∈ ProgramFilter.RunTrace opt sink st k inputs,
      s.fwd = [] ∧ s.ret = false := by
  intro inputs
  induction inputs with
  | nil => intro st k _ s hs; simp [ProgramFilter.RunTrace] at hs
  | cons i is ih =>
    intro st k h s hs
    have hstep := handlePacket_stopped opt sink k st i h
    simp only [ProgramFilter.RunTrace, List.mem_cons] at hs
    rcases hs with rfl | hs
    · exact ⟨hstep.1, hstep.2.1⟩
    · exact ih _ _ hstep.2.2 s hs

/-- Witness for the amended C3 on a concrete stopped state. -/
theorem c3_amended_witness :
    (ProgramFilter.HandlePacket wOpt (fun _ => true) 0
        { ProgramFilter.init with stop := true }
        { tables := [], pkt := wPatPkt }).fwd = []
    ∧ (ProgramFilter.HandlePacket wOpt (fun _ => true) 0
        { ProgramFilter.init with stop := true }
        { tables := [], pkt := wPatPkt }).ret = false :=
  c3_amended_stop_is_latched wOpt (fun _ => true)
    [{ tables := [], pkt := wPatPkt }]
    { ProgramFilter.init with stop := true } 0 rfl
    (ProgramFilter.HandlePacket wOpt (fun _ => true) 0
      { ProgramFilter.init with stop := true }
      { tables := [], pkt := wPatPkt })
    (by simp [ProgramFilter.RunTrace])

/-- C4: the claim asserts sign antisymmetry of ComparePcr on distinct
33-bit values and that ComparePcr 10 (2 ^ 33 - 10) is positive.  The code
disagrees: ComparePcr 10 (2 ^ 33 - 10) evaluates to 20 - 2 ^ 33, which is
negative, and ComparePcr (2 ^ 33 - 10) 10 evaluates to -20, so both
orders of this distinct pair yield a negative value.  This theorem
evaluates the code at that failing input. -/
theorem c4_compare_pcr_wrap_eval :
    ComparePcr 10 (kPcrUpperBound - 10) = 20 - kPcrUpperBound
    ∧ ComparePcr 10 (kPcrUpperBound - 10) < 0
    ∧ ComparePcr (kPcrUpperBound - 10) 10 = -20 := by decide

/-- C7: ConvertTimeToPcr equals the wrap-normalized value
(clock_pcr + (time - clock_time) * 90) mod 2 ^ 33, and in particular
projecting clock_time itself with a non-negative clock_pcr yields
clock_pcr mod 2 ^ 33. -/
theorem c7_convert_time_to_pcr (opt : ProgramFilterOption) (t : Int) :
    ConvertTimeToPcr opt t
        = (opt.clock_pcr + (t - opt.clock_time) * kPcrTicksPerMs) % kPcrUpperBound
      ∧ (opt.clock_time = t → 0 ≤ opt.clock_pcr →
          ConvertTimeToPcr opt t = opt.clock_pcr % kPcrUpperBound) := by
  constructor
  · simp only [ConvertTimeToPcr]
    exact pcrWrapNonneg_emod _
  · intro h _
    simp only [ConvertTimeToPcr, h, sub_self, zero_mul, add_zero]
    exact pcrWrapNonneg_emod _

/-- Witness for C7 at a concrete input. -/
theorem c7_witness :
    ConvertTimeToPcr
        { sid := 1, eid := 4096, clock_pcr := 5, clock_time := 7,
          start_margin := 0, end_margin := 0, pre_streaming := false } 7 = 5 := by
  rw [(c7_convert_time_to_pcr
        { sid := 1, eid := 4096, clock_pcr := 5, clock_time := 7,
          start_margin := 0, end_margin := 0, pre_streaming := false } 7).2
      rfl (by norm_num)]
  decide

/-! ### PAT handling (C8) -/

/-- C8: a PAT whose source PID is not the PAT PID, or whose ts_id is 0,
is skipped with no state change and no demux operation; an accepted PAT
updates pmt_pid and unsubscribes the previously tracked PMT PID (when
one was tracked) before subscribing the new one. -/
theorem c8_handle_pat (opt : ProgramFilterOption) (t : PatTable)
    (st : ProgramFilter) :
    (t.sourcePid ≠ patPid ∨ t.ts_id = 0 →
      ProgramFilter.HandlePat opt t st = (st, []))
    ∧ (t.sourcePid = patPid → t.valid = true → t.ts_id ≠ 0 →
        ∀ newPid, t.pmts.lookup opt.sid = some newPid →
          ProgramFilter.HandlePat opt t st =
            ({ st with pmt_pid := newPid },
             (if st.pmt_pid ≠ nullPid then [DemuxOp.remove st.pmt_pid] else [])
               ++ [DemuxOp.add newPid])) := by
  constructor
  · intro h
    rcases h with h | h
    · simp [ProgramFilter.HandlePat, h]
    · by_cases hsrc : t.sourcePid ≠ patPid
      · simp [ProgramFilter.HandlePat, hsrc]
      · by_cases hval : t.valid = false
        · simp [ProgramFilter.HandlePat, hsrc, hval]
        · simp [ProgramFilter.HandlePat, hsrc, hval, h]
  · intro hsrc hval hts newPid hlook
    simp only [ProgramFilter.HandlePat, hsrc, hval, hts, hlook]
    by_cases hn : st.pmt_pid ≠ nullPid <;> simp [hn]

/-- Witness for C8: a PAT delivered on the EIT PID (0x0012) is skipped
with no demux operation; an accepted PAT on the ready state replaces PMT
PID 256 by 300 with an unsubscribe followed by a subscribe. -/
theorem c8_witness :
    ProgramFilter.HandlePat wOpt
        { sourcePid := 18, valid := true, ts_id := 1, pmts := [(1, 256)] }
        wReadySt = (wReadySt, [])
    ∧ ProgramFilter.HandlePat wOpt
        { sourcePid := 0, valid := true, ts_id := 1, pmts := [(1, 300)] }
        wReadySt =
      ({ wReadySt with pmt_pid := 300 },
       [DemuxOp.remove 256, DemuxOp.add 300]) := by
  constructor
  · exact (c8_handle_pat wOpt
      { sourcePid := 18, valid := true, ts_id := 1, pmts := [(1, 256)] }
      wReadySt).1 (Or.inl (by decide))
  · have h := (c8_handle_pat wOpt
      { sourcePid := 0, valid := true, ts_id := 1, pmts := [(1, 300)] }
      wReadySt).2 rfl rfl (by decide) 300 (by decide)
    rw [h]
    simp [wReadySt, nullPid]

/-! ### Airtime Tracker (C9, C5) -/

/-- C9: a valid EIT for the target service whose present event (or else
following event) is the target emits exactly one JSON record, with the
members in the order nid, tsid, sid, eid, startTime, duration, where
startTime is start_time minus the Unix epoch in milliseconds and duration
is the duration in seconds times 1000. -/
theorem c9_airtime_json (aopt : AirtimeTrackerOption) (uep : Int)
    (t : EitTable) (a : AirtimeTracker)
    (hv : t.valid = true) (hs : t.service_id = aopt.sid) :
    (∀ e0 rest, t.events = e0 :: rest → e0.event_id = aopt.eid →
      (AirtimeTracker.HandleEit aopt uep t a).2
          = [AirtimeTracker.WriteEventInfo uep t e0]
      ∧ AirtimeTracker.WriteEventInfo uep t e0
          = [("nid", (t.onetw_id : Int)), ("tsid", (t.ts_id : Int)),
             ("sid", (t.service_id : Int)), ("eid", (e0.event_id : Int)),
             ("startTime", e0.start_time - uep),
             ("duration", e0.duration * 1000)])
    ∧ (∀ e0 e1 rest, t.events = e0 :: e1 :: rest →
        e0.event_id ≠ aopt.eid → e1.event_id = aopt.eid →
        (AirtimeTracker.HandleEit aopt uep t a).2
            = [AirtimeTracker.WriteEventInfo uep t e1]
        ∧ AirtimeTracker.WriteEventInfo uep t e1
            = [("nid", (t.onetw_id : Int)), ("tsid", (t.ts_id : Int)),
               ("sid", (t.service_id : Int)), ("eid", (e1.event_id : Int)),
               ("startTime", e1.start_time - uep),
               ("duration", e1.duration * 1000)]) := by
  constructor
  · intro e0 rest heq he
    exact ⟨by simp [AirtimeTracker.HandleEit, hv, hs, heq, he], rfl⟩
  · intro e0 e1 rest heq hne he
    exact ⟨by simp [AirtimeTracker.HandleEit, hv, hs, heq, hne, he], rfl⟩

/-- Witness for C9 on a concrete EIT whose present event matches. -/
theorem c9_witness :
    (AirtimeTracker.HandleEit { sid := 1, eid := 4096 } 100
        { valid := true, onetw_id := 2, ts_id := 3, service_id := 1,
          events := [{ event_id := 4096, start_time := 500, duration := 60 }] }
        { done := false }).2
      = [[("nid", 2), ("tsid", 3), ("sid", 1), ("eid", 4096),
          ("startTime", 400), ("duration", 60000)]] := by
  have h := (c9_airtime_json { sid := 1, eid := 4096 } 100
      { valid := true, onetw_id := 2, ts_id := 3, service_id := 1,
        events := [{ event_id := 4096, start_time := 500, duration := 60 }] }
      { done := false } rfl rfl).1
      { event_id := 4096, start_time := 500, duration := 60 } [] rfl rfl
  rw [h.1, h.2]
  norm_num

/-- The done flag of the tracker is never reset by an EIT. -/
lemma atHandleEit_done_mono (aopt : AirtimeTrackerOption) (uep : Int)
    (t : EitTable) (a : AirtimeTracker) (h : a.done = true) :
    (AirtimeTracker.HandleEit aopt uep t a).1.done = true := by
  simp only [AirtimeTracker.HandleEit]
  (repeat' split) <;> simp_all

lemma atFeedTables_done_mono (aopt : AirtimeTrackerOption) (uep : Int) :
    ∀ (ts : List Table) (a : AirtimeTracker), a.done = true →
    (AirtimeTracker.FeedTables aopt uep a ts).1.done = true := by
  intro ts
  induction ts with
  | nil => intro a h; exact h
  | cons tb ts ih =>
    intro a h
    simp only [AirtimeTracker.FeedTables]
    apply ih
    cases tb <;> simp only [AirtimeTracker.HandleTable]
    · exact h
    · exact h
    · exact atHandleEit_done_mono aopt uep _ a h
    · exact h

/-- Once done is set, AirtimeTracker::HandlePacket returns false. -/
lemma atHandlePacket_done (aopt : AirtimeTrackerOption) (uep : Int)
    (a : AirtimeTracker) (inp : PFInput) (h : a.done = true) :
    (AirtimeTracker.HandlePacket aopt uep a inp).2.2 = false := by
  simp [AirtimeTracker.HandlePacket,
    atFeedTables_done_mono aopt uep inp.tables a h]

/-- The target event is absent from a present/following event list: no
events were checked as present, the only listed event is not the target,
or neither of the first two events is the target. -/
def EitTargetAbsent (eid : Nat) : List EitEvent → Bool
  | [] => false
  | [e] => e.event_id != eid
  | e0 :: e1 :: _ => (e0.event_id != eid) && (e1.event_id != eid)

/-- C5: on a valid EIT for the target service: with zero events the
Program Filter sets stop and the Airtime Tracker sets done, and the next
HandlePacket of each returns false; when the target event id is absent
from the present and following slots (or only one event is listed and it
is not the target), the Airtime Tracker always sets done, while the
Program Filter sets stop only in WaitReady and is left unchanged in
Streaming. -/
theorem c5_eit_missing_event (opt : ProgramFilterOption)
    (aopt : AirtimeTrackerOption) (t : EitTable) (st : ProgramFilter)
    (a : AirtimeTracker) (uep : Int) (sink : Nat → Bool) (k : Nat)
    (inp : PFInput)
    (hv : t.valid = true) (hs1 : t.service_id = opt.sid)
    (hs2 : t.service_id = aopt.sid) (he : opt.eid = aopt.eid) :
    (t.events = [] →
      (ProgramFilter.HandleEit opt t st).stop = true
      ∧ (AirtimeTracker.HandleEit aopt uep t a).1.done = true
      ∧ (ProgramFilter.HandlePacket opt sink k
          (ProgramFilter.HandleEit opt t st) inp).ret = false
      ∧ (AirtimeTracker.HandlePacket aopt uep
          (AirtimeTracker.HandleEit aopt uep t a).1 inp).2.2 = false)
    ∧ (EitTargetAbsent opt.eid t.events = true →
      (AirtimeTracker.HandleEit aopt uep t a).1.done = true
      ∧ (st.state = PFState.waitReady →
          (ProgramFilter.HandleEit opt t st).stop = true)
      ∧ (st.state = PFState.streaming →
          ProgramFilter.HandleEit opt t st = st)) := by
  constructor
  · intro hev
    have hstop : (ProgramFilter.HandleEit opt t st).stop = true := by
      simp [ProgramFilter.HandleEit, hv, hs1, hev]
    have hdone : (AirtimeTracker.HandleEit aopt uep t a).1.done = true := by
      simp [AirtimeTracker.HandleEit, hv, hs2, hev]
    exact ⟨hstop, hdone,
      (handlePacket_stopped opt sink k _ inp hstop).2.1,
      atHandlePacket_done aopt uep _ inp hdone⟩
  · intro habs
    rcases hev : t.events with _ | ⟨e0, _ | ⟨e1, rest⟩⟩
    · rw [hev] at habs; simp [EitTargetAbsent] at habs
    · rw [hev] at habs
      simp only [EitTargetAbsent, bne_iff_ne, ne_eq] at habs
      have habs2 : ¬e0.event_id = aopt.eid := by rw [← he]; exact habs
      refine ⟨by simp [AirtimeTracker.HandleEit, hv, hs2, hev, habs2], ?_, ?_⟩
      · intro hw
        simp [ProgramFilter.HandleEit, hv, hs1, hev, habs, hw]
      · intro hw
        simp [ProgramFilter.HandleEit, hv, hs1, hev, habs, hw]
    · rw [hev] at habs
      simp only [EitTargetAbsent, Bool.and_eq_true, bne_iff_ne, ne_eq] at habs
      have habs2 : ¬e0.event_id = aopt.eid := by rw [← he]; exact habs.1
      have habs3 : ¬e1.event_id = aopt.eid := by rw [← he]; exact habs.2
      refine ⟨by simp [AirtimeTracker.HandleEit, hv, hs2, hev, habs2, habs3],
        ?_, ?_⟩
      · intro hw
        simp [ProgramFilter.HandleEit, hv, hs1, hev, habs.1, habs.2, hw]
      · intro hw
        simp [ProgramFilter.HandleEit, hv, hs1, hev, habs.1, habs.2, hw]

/-- An EIT for service 1 whose single present event is not event 4096. -/
def wEitOther : EitTable :=
  { valid := true, onetw_id := 2, ts_id := 3, service_id := 1,
    events := [{ event_id := 5000, start_time := 0, duration := 1 }] }

/-- An EIT for service 1 with no events. -/
def wEitEmpty : EitTable :=
  { valid := true, onetw_id := 2, ts_id := 3, service_id := 1, events := [] }

/-- Witness for C5: the zero-event EIT sets stop and done and makes the
next calls return false; the absent-target EIT sets done and, from the
WaitReady state, sets stop. -/
theorem c5_witness :
    ((ProgramFilter.HandleEit wOpt wEitEmpty wReadySt).stop = true
      ∧ (AirtimeTracker.HandleEit { sid := 1, eid := 4096 } 0 wEitEmpty
          { done := false }).1.done = true
      ∧ (ProgramFilter.HandlePacket wOpt (fun _ => true) 0
          (ProgramFilter.HandleEit wOpt wEitEmpty wReadySt)
          { tables := [], pkt := wPatPkt }).ret = false
      ∧ (AirtimeTracker.HandlePacket { sid := 1, eid := 4096 } 0
          (AirtimeTracker.HandleEit { sid := 1, eid := 4096 } 0 wEitEmpty
            { done := false }).1
          { tables := [], pkt := wPatPkt }).2.2 = false)
    ∧ ((AirtimeTracker.HandleEit { sid := 1, eid := 4096 } 0 wEitOther
          { done := false }).1.done = true
      ∧ (ProgramFilter.HandleEit wOpt wEitOther wReadySt).stop = true) := by
  have h1 := (c5_eit_missing_event wOpt { sid := 1, eid := 4096 } wEitEmpty
      wReadySt { done := false } 0 (fun _ => true) 0
      { tables := [], pkt := wPatPkt } rfl rfl rfl rfl).1 rfl
  have h2 := (c5_eit_missing_event wOpt { sid := 1, eid := 4096 } wEitOther
      wReadySt { done := false } 0 (fun _ => true) 0
      { tables := [], pkt := wPatPkt } rfl rfl rfl rfl).2 (by decide)
  exact ⟨h1, h2.1, h2.2.1 rfl⟩
